import Mathlib

/-!
Shallow embedding of the theme-preference logic of the portfolio site.

Two implementations exist in the repository:
* `src/unnamed/part_000`, lines 316-364: the final (live, last-definition-wins)
  `initTheme`, using `sessionStorage` and a `matchMedia` change listener.
* `src/assets/js/script.js`, lines 118-163: the `localStorage` variant
  without a change listener.

The DOM and storage environment is modelled as an explicit record:
`bodyDark` is `body.classList.contains('dark-theme')`, `toggleBtnPresent`
records whether `document.getElementById('themeToggle')` found the control,
`toggleIcon` is the control's `innerHTML` (`none` when never set or the
control is absent), `store` is the `'theme'` entry of the relevant
key-value store (`sessionStorage` for the final implementation,
`localStorage` for the script.js one), and `systemPrefersDark` is
`window.matchMedia('(prefers-color-scheme: dark)').matches`.
-/

namespace Portfolio

/-- Model of the page state seen and mutated by the theme component. -/
structure DomState where
  bodyDark : Bool
  toggleBtnPresent : Bool
  toggleIcon : Option String
  store : Option String
  systemPrefersDark : Bool
deriving DecidableEq, Repr

/-- `'<i class="fa-solid fa-sun"></i>'`, the icon written when dark. -/
def sunIcon : String := "<i class=\"fa-solid fa-sun\"></i>"

/-- `'<i class="fa-solid fa-moon"></i>'`, the icon written when light. -/
def moonIcon : String := "<i class=\"fa-solid fa-moon\"></i>"

/-- `applyTheme(isDark)` from part_000 lines 322-330: adds or removes
`dark-theme` on the body and, when the toggle control exists, sets its
`innerHTML` to the sun icon (dark) or the moon icon (light). -/
def applyTheme (isDark : Bool) (st : DomState) : DomState :=
  if isDark then
    { st with bodyDark := true,
              toggleIcon := if st.toggleBtnPresent then some sunIcon else st.toggleIcon }
  else
    { st with bodyDark := false,
              toggleIcon := if st.toggleBtnPresent then some moonIcon else st.toggleIcon }

/-- The initial resolution in part_000 lines 333-342:
`sessionStorage.getItem('theme')` is compared with `'dark'` and `'light'`;
otherwise the system preference decides. -/
def initTheme (st : DomState) : DomState :=
  let sessionPreference := st.store
  if sessionPreference = some "dark" then
    applyTheme true st
  else if sessionPreference = some "light" then
    applyTheme false st
  else
    applyTheme st.systemPrefersDark st

/-- JavaScript truth value of `!sessionStorage.getItem('theme')`:
`getItem` returns `null` when absent (falsy) and the stored string
otherwise, of which exactly the empty string is falsy. -/
def storeFalsy (st : DomState) : Bool :=
  match st.store with
  | none => true
  | some s => s == ""

/-- The `matchMedia` change listener of part_000 lines 346-350:
`if (!sessionStorage.getItem('theme')) applyTheme(e.matches)`. -/
def onSystemPreferenceChanged (m : Bool) (st : DomState) : DomState :=
  if storeFalsy st then applyTheme m st else st

/-- The click handler body of part_000 lines 354-362: flip the current
state, apply it, and write `'dark'` or `'light'` to `sessionStorage`. -/
def onToggleRequested (st : DomState) : DomState :=
  let isDarkNow := st.bodyDark
  let newMode := !isDarkNow
  let st1 := applyTheme newMode st
  { st1 with store := some (if newMode then "dark" else "light") }

/-- A click on the page: the listener is only attached when the toggle
control exists (part_000 line 353 `if (toggleBtn)`), and an absent control
cannot be clicked, so the handler runs only when the control is present. -/
def onToggleClick (st : DomState) : DomState :=
  if st.toggleBtnPresent then onToggleRequested st else st

/-- `updateIcon(isDark)` from script.js lines 157-162: returns without
effect when the control is absent, otherwise sets its `innerHTML`. -/
def updateIcon (isDark : Bool) (st : DomState) : DomState :=
  if st.toggleBtnPresent then
    { st with toggleIcon := some (if isDark then sunIcon else moonIcon) }
  else st

/-- The initial resolution in script.js lines 129-142.  Note the final
`else` branch only calls `updateIcon(false)`; it does not remove the
`dark-theme` class from the body. -/
def initThemeScript (st : DomState) : DomState :=
  let savedTheme := st.store
  if savedTheme = some "dark" then
    updateIcon true { st with bodyDark := true }
  else if savedTheme = some "light" then
    updateIcon false { st with bodyDark := false }
  else if st.systemPrefersDark then
    updateIcon true { st with bodyDark := true }
  else
    updateIcon false st

end Portfolio

namespace Portfolio

/-- C1: for StoredPreference in {absent, "dark", "light"} and any system
preference, the initial resolution yields Dark exactly when the stored
value is "dark", or it is absent and the system prefers dark; a present
stored value wins over the system signal. -/
theorem initTheme_resolution (st : DomState)
    (h : st.store = none ∨ st.store = some "dark" ∨ st.store = some "light") :
    ((initTheme st).bodyDark = true ↔
      (st.store = some "dark" ∨ (st.store = none ∧ st.systemPrefersDark = true))) := by
  rcases h with h | h | h <;>
    cases hs : st.systemPrefersDark <;>
      simp [initTheme, applyTheme, h, hs]

theorem initTheme_resolution_witness :
    let st : DomState := ⟨false, true, none, none, true⟩
    (st.store = none ∨ st.store = some "dark" ∨ st.store = some "light") ∧
      ((initTheme st).bodyDark = true ↔
        (st.store = some "dark" ∨ (st.store = none ∧ st.systemPrefersDark = true))) :=
  ⟨Or.inl rfl, initTheme_resolution ⟨false, true, none, none, true⟩ (Or.inl rfl)⟩

/-- C2: one invocation of the toggle handler flips the applied state and
writes the string matching the new state into the store. -/
theorem onToggleRequested_flips_and_writes (st : DomState) :
    (onToggleRequested st).bodyDark = !st.bodyDark ∧
      (onToggleRequested st).store =
        some (if (onToggleRequested st).bodyDark then "dark" else "light") := by
  cases hb : st.bodyDark <;>
    simp [onToggleRequested, applyTheme, hb]

/-- C6: `applyTheme` is idempotent: applying the same state twice leaves
the whole page state exactly as applying it once. -/
theorem applyTheme_idempotent (s : Bool) (st : DomState) :
    applyTheme s (applyTheme s st) = applyTheme s st := by
  cases s <;> cases hp : st.toggleBtnPresent <;>
    simp [applyTheme, hp]

/-- C7: starting from applied state Light, toggling twice restores Light
and leaves the stored preference equal to "light". -/
theorem toggle_twice_from_light (st : DomState) (h : st.bodyDark = false) :
    (onToggleRequested (onToggleRequested st)).bodyDark = false ∧
      (onToggleRequested (onToggleRequested st)).store = some "light" := by
  cases hp : st.toggleBtnPresent <;>
    simp [onToggleRequested, applyTheme, h, hp]

theorem toggle_twice_from_light_witness :
    let st : DomState := ⟨false, true, none, some "dark", true⟩
    st.bodyDark = false ∧
      ((onToggleRequested (onToggleRequested st)).bodyDark = false ∧
        (onToggleRequested (onToggleRequested st)).store = some "light") :=
  ⟨rfl, toggle_twice_from_light ⟨false, true, none, some "dark", true⟩ rfl⟩

/-- C8: a stored string that is neither "dark" nor "light" makes the
initial resolution behave exactly as if the stored preference were absent,
in both the final (part_000) and the script.js implementation. -/
theorem initTheme_malformed_as_absent (st : DomState) (s : String)
    (h1 : s ≠ "dark") (h2 : s ≠ "light") :
    ((initTheme { st with store := some s }).bodyDark =
        (initTheme { st with store := none }).bodyDark ∧
      (initTheme { st with store := some s }).toggleIcon =
        (initTheme { st with store := none }).toggleIcon) ∧
    ((initThemeScript { st with store := some s }).bodyDark =
        (initThemeScript { st with store := none }).bodyDark ∧
      (initThemeScript { st with store := some s }).toggleIcon =
        (initThemeScript { st with store := none }).toggleIcon) := by
  constructor
  · constructor <;>
      cases hs : st.systemPrefersDark <;>
        simp [initTheme, applyTheme, h1, h2, hs]
  · constructor <;>
      cases hs : st.systemPrefersDark <;>
        cases hp : st.toggleBtnPresent <;>
          simp [initThemeScript, updateIcon, h1, h2, hs, hp]

theorem initTheme_malformed_as_absent_witness :
    let st : DomState := ⟨false, true, none, none, true⟩
    ("blue" ≠ "dark" ∧ "blue" ≠ "light") ∧
      (((initTheme { st with store := some "blue" }).bodyDark =
          (initTheme { st with store := none }).bodyDark ∧
        (initTheme { st with store := some "blue" }).toggleIcon =
          (initTheme { st with store := none }).toggleIcon) ∧
      ((initThemeScript { st with store := some "blue" }).bodyDark =
          (initThemeScript { st with store := none }).bodyDark ∧
        (initThemeScript { st with store := some "blue" }).toggleIcon =
          (initThemeScript { st with store := none }).toggleIcon)) :=
  ⟨⟨by decide, by decide⟩,
    initTheme_malformed_as_absent ⟨false, true, none, none, true⟩ "blue"
      (by decide) (by decide)⟩

/-- C9: after applying a state, a present toggle control shows the sun
icon exactly when the applied state is Dark and the moon icon exactly when
it is Light. -/
theorem applyTheme_icon_opposite (b : Bool) (st : DomState)
    (h : st.toggleBtnPresent = true) :
    ((applyTheme b st).toggleIcon = some sunIcon ↔ b = true) ∧
      ((applyTheme b st).toggleIcon = some moonIcon ↔ b = false) := by
  cases b <;>
    simp [applyTheme, h, sunIcon, moonIcon]

theorem applyTheme_icon_opposite_witness :
    let st : DomState := ⟨false, true, none, none, false⟩
    st.toggleBtnPresent = true ∧
      (((applyTheme true st).toggleIcon = some sunIcon ↔ true = true) ∧
        ((applyTheme true st).toggleIcon = some moonIcon ↔ true = false)) :=
  ⟨rfl, applyTheme_icon_opposite true ⟨false, true, none, none, false⟩ rfl⟩

/-- Helper: `applyTheme` never touches the store. -/
theorem applyTheme_store (b : Bool) (st : DomState) :
    (applyTheme b st).store = st.store := by
  cases b <;> simp [applyTheme]

/-- C3 counterexample: a stored empty string is a present StoredPreference,
yet the change handler (whose guard is the JavaScript-falsy test
`!sessionStorage.getItem('theme')`) still changes the applied state. -/
theorem onSystemPreferenceChanged_stored_empty_changes_state :
    (DomState.mk false true none (some "") false).store ≠ none ∧
      (DomState.mk false true none (some "") false).bodyDark = false ∧
      (onSystemPreferenceChanged true
          (DomState.mk false true none (some "") false)).bodyDark = true := by
  refine ⟨by simp, rfl, ?_⟩
  simp [onSystemPreferenceChanged, storeFalsy, applyTheme]

/-- C3 amended: if StoredPreference is absent or the empty string, the
change handler applies Dark when the event value is true and Light when it
is false; if a non-empty StoredPreference exists, the event causes no
change to the state. -/
theorem onSystemPreferenceChanged_amended (st : DomState) (m : Bool) :
    ((st.store = none ∨ st.store = some "") →
        (onSystemPreferenceChanged m st).bodyDark = m) ∧
      (∀ s, st.store = some s → s ≠ "" → onSystemPreferenceChanged m st = st) := by
  constructor
  · intro h
    have hf : storeFalsy st = true := by
      rcases h with h | h <;> simp [storeFalsy, h]
    cases m <;> simp [onSystemPreferenceChanged, hf, applyTheme]
  · intro s hs hne
    have hf : storeFalsy st = false := by
      simp [storeFalsy, hs, hne]
    simp [onSystemPreferenceChanged, hf]

theorem onSystemPreferenceChanged_amended_witness :
    ((DomState.mk false true none none false).store = none ∨
        (DomState.mk false true none none false).store = some "") ∧
      (onSystemPreferenceChanged true
          (DomState.mk false true none none false)).bodyDark = true ∧
      (DomState.mk false true none (some "dark") false).store = some "dark" ∧
      "dark" ≠ "" ∧
      onSystemPreferenceChanged true (DomState.mk false true none (some "dark") false) =
        DomState.mk false true none (some "dark") false :=
  ⟨Or.inl rfl,
    (onSystemPreferenceChanged_amended (DomState.mk false true none none false) true).1
      (Or.inl rfl),
    rfl, by simp,
    (onSystemPreferenceChanged_amended
        (DomState.mk false true none (some "dark") false) true).2 "dark" rfl (by simp)⟩

/-- C4: only the toggle handler creates or overwrites the stored
preference; the initial resolution, `applyTheme` and the system-change
handler leave the store untouched, the toggle writes "dark" or "light",
and no operation ever deletes the entry (no operation maps a present store
to `none`). -/
theorem only_toggle_writes_store (st : DomState) (b m : Bool) :
    (initTheme st).store = st.store ∧
      (applyTheme b st).store = st.store ∧
      (onSystemPreferenceChanged m st).store = st.store ∧
      ((onToggleRequested st).store = some "dark" ∨
        (onToggleRequested st).store = some "light") ∧
      ((onToggleClick st).store = st.store ∨
        (onToggleClick st).store = some "dark" ∨
        (onToggleClick st).store = some "light") := by
  refine ⟨?_, applyTheme_store b st, ?_, ?_, ?_⟩
  · simp only [initTheme]
    split
    · exact applyTheme_store true st
    · split
      · exact applyTheme_store false st
      · exact applyTheme_store st.systemPrefersDark st
  · simp only [onSystemPreferenceChanged]
    split
    · exact applyTheme_store m st
    · rfl
  · cases hb : st.bodyDark <;>
      simp [onToggleRequested, hb]
  · cases hp : st.toggleBtnPresent
    · exact Or.inl (by simp [onToggleClick, hp])
    · cases hb : st.bodyDark <;>
        simp [onToggleClick, onToggleRequested, hp, hb]

/-- C5 counterexample: with the toggle control absent, the initial
resolution is not a no-op: it still sets the dark styling flag on the
body. -/
theorem initTheme_not_noop_without_toggle :
    (DomState.mk false false none none true).toggleBtnPresent = false ∧
      initTheme (DomState.mk false false none none true) ≠
        DomState.mk false false none none true := by
  refine ⟨rfl, ?_⟩
  simp [initTheme, applyTheme]

/-- C5 amended: if the toggle control is absent, the toggle path is
disabled (no click can fire the handler, so no state change and no stored
write happens by toggling), no operation updates an icon or writes or
deletes the stored preference, and no operation raises an error; the
initial resolution and the system-change handler still set or clear the
root styling flag on the (always present, unprobed) document body. -/
theorem absent_toggle_amended (st : DomState) (h : st.toggleBtnPresent = false) :
    onToggleClick st = st ∧
      (initTheme st).toggleIcon = st.toggleIcon ∧
      (initTheme st).store = st.store ∧
      (∀ m, (onSystemPreferenceChanged m st).toggleIcon = st.toggleIcon ∧
        (onSystemPreferenceChanged m st).store = st.store) ∧
      (∀ b, (applyTheme b st).toggleIcon = st.toggleIcon ∧
        (applyTheme b st).store = st.store) := by
  have happ : ∀ b, (applyTheme b st).toggleIcon = st.toggleIcon ∧
      (applyTheme b st).store = st.store := by
    intro b
    cases b <;> simp [applyTheme, h]
  refine ⟨by simp [onToggleClick, h], ?_, ?_, ?_, happ⟩
  · simp only [initTheme]
    split
    · exact (happ true).1
    · split
      · exact (happ false).1
      · exact (happ st.systemPrefersDark).1
  · simp only [initTheme]
    split
    · exact (happ true).2
    · split
      · exact (happ false).2
      · exact (happ st.systemPrefersDark).2
  · intro m
    simp only [onSystemPreferenceChanged]
    split
    · exact happ m
    · exact ⟨rfl, rfl⟩

theorem absent_toggle_amended_witness :
    (DomState.mk true false none (some "dark") true).toggleBtnPresent = false ∧
      (onToggleClick (DomState.mk true false none (some "dark") true) =
          DomState.mk true false none (some "dark") true ∧
        (initTheme (DomState.mk true false none (some "dark") true)).toggleIcon =
          (DomState.mk true false none (some "dark") true).toggleIcon ∧
        (initTheme (DomState.mk true false none (some "dark") true)).store =
          (DomState.mk true false none (some "dark") true).store ∧
        (∀ m, (onSystemPreferenceChanged m
            (DomState.mk true false none (some "dark") true)).toggleIcon =
            (DomState.mk true false none (some "dark") true).toggleIcon ∧
          (onSystemPreferenceChanged m
            (DomState.mk true false none (some "dark") true)).store =
            (DomState.mk true false none (some "dark") true).store) ∧
        (∀ b, (applyTheme b (DomState.mk true false none (some "dark") true)).toggleIcon =
            (DomState.mk true false none (some "dark") true).toggleIcon ∧
          (applyTheme b (DomState.mk true false none (some "dark") true)).store =
            (DomState.mk true false none (some "dark") true).store)) :=
  ⟨rfl, absent_toggle_amended (DomState.mk true false none (some "dark") true) rfl⟩

/-- C10: for every stored value (absent, "dark", "light", or any other
string) and every system preference, the localStorage initTheme of
script.js and the final sessionStorage initTheme of part_000 compute the
same initial applied state whenever the body does not initially carry the
dark styling flag. -/
theorem initTheme_implementations_agree (stored : Option String)
    (sys btnp : Bool) (icon : Option String) :
    (initThemeScript ⟨false, btnp, icon, stored, sys⟩).bodyDark =
      (initTheme ⟨false, btnp, icon, stored, sys⟩).bodyDark := by
  rcases stored with _ | s
  · cases sys <;> cases btnp <;>
      simp [initThemeScript, initTheme, applyTheme, updateIcon]
  · by_cases h1 : s = "dark"
    · cases btnp <;>
        simp [initThemeScript, initTheme, applyTheme, updateIcon, h1]
    · by_cases h2 : s = "light"
      · cases btnp <;>
          simp [initThemeScript, initTheme, applyTheme, updateIcon, h1, h2]
      · cases sys <;> cases btnp <;>
          simp [initThemeScript, initTheme, applyTheme, updateIcon, h1, h2]

end Portfolio
